import Mathlib

/-!
Verification of the BigQuery CI/CD glue scripts
(`scripts/load_data.py`, `scripts/run_transformations.py`, `test_connection.py`).

Strings are modelled as `List Char`; Python string builtins used by the
scripts (`str.split(';')`, `str.strip()`, `str.replace`, `str.startswith`)
are embedded as executable Lean functions below.  External effects (the
BigQuery client, the filesystem, `json.loads`) are modelled as oracle
parameters: an exception that a Python call may raise is an `Except.error`
outcome of the corresponding oracle, and a `try/except` block in the source
becomes a `match` on that outcome.
-/

set_option autoImplicit false

/-- Whitespace recognised by Python `str.strip()` for the ASCII texts the
scripts handle: space, tab, newline, carriage return, vertical tab, form feed. -/
def isPySpace (c : Char) : Bool :=
  c = ' ' || c = '\t' || c = '\n' || c = '\r' || c = '\x0b' || c = '\x0c'

/-- Python `str.strip()`: drop whitespace from both ends. -/
def pyStrip (s : List Char) : List Char :=
  ((s.dropWhile isPySpace).reverse.dropWhile isPySpace).reverse

/-- Python `str.split(sep)` for a one-character separator: split on every
occurrence, keeping empty segments (`"A;;B".split(';') == ["A", "", "B"]`). -/
def pySplitOn (sep : Char) : List Char → List (List Char)
  | [] => [[]]
  | c :: rest =>
    let groups := pySplitOn sep rest
    if c = sep then [] :: groups
    else
      match groups with
      | [] => [[c]]
      | g :: gs => (c :: g) :: gs

/-- Python `str.startswith(pat)` on character lists. -/
def listStartsWith : List Char → List Char → Bool
  | [], _ => true
  | _ :: _, [] => false
  | p :: ps, c :: cs => p = c && listStartsWith ps cs

/-- `occursIn pat s` holds when `pat` occurs as a contiguous substring of `s`. -/
def occursIn (pat : List Char) : List Char → Bool
  | [] => listStartsWith pat []
  | c :: rest => listStartsWith pat (c :: rest) || occursIn pat rest

/-- Python `str.replace(pat, rep)` (all occurrences, scanned left to right,
non-overlapping), written with explicit fuel so the kernel can evaluate it;
fuel `s.length` is enough because every step consumes at least one character.
The scripts only call this with the three fixed non-empty placeholders, so the
empty-pattern guard (which returns the input unchanged) is never exercised. -/
def replaceAllFuel (pat rep : List Char) : Nat → List Char → List Char
  | 0, s => s
  | _ + 1, [] => []
  | fuel + 1, c :: rest =>
    if listStartsWith pat (c :: rest) && !pat.isEmpty then
      rep ++ replaceAllFuel pat rep fuel ((c :: rest).drop pat.length)
    else
      c :: replaceAllFuel pat rep fuel rest

/-- Python `s.replace(pat, rep)`. -/
def pyReplace (s pat rep : List Char) : List Char :=
  replaceAllFuel pat rep s.length s

/-- The flat configuration mapping loaded from `config.yaml`
(the keys the two scripts substitute or pass to the client). -/
structure Config where
  gcp_project_id : List Char
  dataset_id : List Char
  table_id : List Char
  location : List Char
deriving DecidableEq, Repr

/-- A replace pass leaves a text unchanged when the pattern does not occur in it. -/
theorem replaceAllFuel_not_occurs (pat rep : List Char) :
    ∀ (fuel : Nat) (s : List Char), occursIn pat s = false →
      replaceAllFuel pat rep fuel s = s := by
  intro fuel
  induction fuel with
  | zero => intro s _; rfl
  | succ n ih =>
    intro s h
    cases s with
    | nil => rfl
    | cons c rest =>
      rw [occursIn, Bool.or_eq_false_iff] at h
      rw [replaceAllFuel, h.1]
      simp [ih rest h.2]

/-- `pyReplace` leaves a text unchanged when the pattern does not occur in it. -/
theorem pyReplace_not_occurs (s pat rep : List Char) (h : occursIn pat s = false) :
    pyReplace s pat rep = s :=
  replaceAllFuel_not_occurs pat rep s.length s h

namespace RunTransformations

/-- Config-file selection inside `load_config`
(`run_transformations.py` line 23): `os.environ.get` of `CONFIG_FILE`
with default `config.yaml`; the argument is the environment variable value. -/
def load_config_file (envConfigFile : Option (List Char)) : List Char :=
  envConfigFile.getD "config.yaml".toList

/-- `substitute_parameters` (`run_transformations.py` lines 56-67): the
replacements dict iterates in insertion order, so the three placeholders are
replaced sequentially, `\x7bproject_id\x7d` first, then `\x7bdataset_id\x7d`,
then `\x7btable_id\x7d`. -/
def substitute_parameters (sql_content : List Char) (config : Config) : List Char :=
  let s1 := pyReplace sql_content "{project_id}".toList config.gcp_project_id
  let s2 := pyReplace s1 "{dataset_id}".toList config.dataset_id
  pyReplace s2 "{table_id}".toList config.table_id

/-- The statement splitter of `run_sql_file` (`run_transformations.py`
line 111): `[s.strip() for s in sql_content.split(';') if s.strip()]`
(a stripped fragment is truthy exactly when it is non-empty). -/
def splitStatements (sql_content : List Char) : List (List Char) :=
  ((pySplitOn ';' sql_content).map pyStrip).filter (fun s => !s.isEmpty)

/-- The statement-skip test of the execution loop (`run_transformations.py`
line 118): `statement.startswith('--') or not statement`. -/
def shouldSkip (statement : List Char) : Bool :=
  listStartsWith "--".toList statement || statement.isEmpty

/-- The execution loop of `run_sql_file` (`run_transformations.py` lines
116-131): skipped statements are not attempted; every attempted statement is
recorded with its outcome, and an `Except.error` outcome of `execute_sql` is
caught by the `except` clause, so the loop continues either way.  Returns the
attempted statements in order, paired with success flags. -/
def processStatements (execOutcome : List Char → Except (List Char) Unit) :
    List (List Char) → List (List Char × Bool)
  | [] => []
  | statement :: rest =>
    if shouldSkip statement then
      processStatements execOutcome rest
    else
      match execOutcome statement with
      | Except.ok _ => (statement, true) :: processStatements execOutcome rest
      | Except.error _ => (statement, false) :: processStatements execOutcome rest

/-- `run_sql_file` (`run_transformations.py` lines 91-131).  The file argument
is `none` when `os.path.exists` is false: the function prints a warning and
returns at once, reading, substituting and executing nothing.  Otherwise the
content is read, parameters substituted, statements split and executed.  The
function is total: no per-statement error escapes it. -/
def run_sql_file (execOutcome : List Char → Except (List Char) Unit)
    (config : Config) (file : Option (List Char)) : List (List Char × Bool) :=
  match file with
  | none => []
  | some sql_content =>
    processStatements execOutcome (splitStatements (substitute_parameters sql_content config))

/-- Observable outcome of `verify_transformations`. -/
inductive VerifyOutcome where
  | skippedMissingTable
  | printedRows
  | warnedFailure
deriving DecidableEq, Repr

/-- `verify_transformations` (`run_transformations.py` lines 134-175): if the
summary table is missing it returns after a warning; otherwise it runs the
verification query, catching any failure — it never raises. -/
def verify_transformations (tableExists queryOk : Bool) : VerifyOutcome :=
  if !tableExists then VerifyOutcome.skippedMissingTable
  else if queryOk then VerifyOutcome.printedRows
  else VerifyOutcome.warnedFailure

/-- `main` (`run_transformations.py` lines 178-212), from the point where the
config and client are available (their failures abort the process before the
transformation phase).  It runs `run_sql_file` on `transformations.sql`, then
the verification step, then the final print block, and returns 0.  The result
records the attempted statements, the verification outcome, and the return
value. -/
def main (config : Config) (execOutcome : List Char → Except (List Char) Unit)
    (file : Option (List Char)) (tableExists queryOk : Bool) :
    List (List Char × Bool) × VerifyOutcome × Nat :=
  let executed := run_sql_file execOutcome config file
  let v := verify_transformations tableExists queryOk
  (executed, v, 0)

/-- The attempted statements are exactly the non-skipped statements, in order,
whatever the per-statement outcomes are. -/
theorem processStatements_map_fst (execOutcome : List Char → Except (List Char) Unit)
    (l : List (List Char)) :
    (processStatements execOutcome l).map Prod.fst = l.filter (fun s => !shouldSkip s) := by
  induction l with
  | nil => rfl
  | cons statement rest ih =>
    rw [processStatements, List.filter_cons]
    cases h : shouldSkip statement with
    | true => simp [h, ih]
    | false =>
      cases hex : execOutcome statement with
      | ok u => simp [h, hex, ih]
      | error e => simp [h, hex, ih]

end RunTransformations

namespace LoadData

/-- Config-file selection inside `load_config` (`load_data.py` line 21): the
path is built from the fixed literal `config.yaml`; the environment is not
consulted.  The argument is the value of the `CONFIG_FILE` environment
variable, present only to show that it is ignored. -/
def load_config_file (_envConfigFile : Option (List Char)) : List Char :=
  "config.yaml".toList

/-- One entry of the schema JSON array (`employees_schema`-style file):
`name` and `type` are required by `load_table_schema` (a missing key raises),
`mode` and `description` are read with `dict.get` defaults. -/
structure SchemaFieldJson where
  name : List Char
  type : List Char
  mode : Option (List Char)
  description : Option (List Char)
deriving DecidableEq, Repr

/-- The client-side `bigquery.SchemaField` as constructed by
`load_table_schema`. -/
structure SchemaField where
  name : List Char
  field_type : List Char
  mode : List Char
  description : List Char
deriving DecidableEq, Repr

/-- `load_table_schema` (`load_data.py` lines 69-94), applied to the parsed
JSON array: one `SchemaField` per entry, in file order, with
`field.get('mode', 'NULLABLE')` and `field.get('description', '')`. -/
def load_table_schema (schema_json : List SchemaFieldJson) : List SchemaField :=
  schema_json.map (fun field =>
    SchemaField.mk field.name field.type
      (field.mode.getD "NULLABLE".toList)
      (field.description.getD "".toList))

/-- A dataset object passed to `client.create_dataset`. -/
structure DatasetCall where
  dataset_ref : List Char
  location : List Char
  description : List Char
deriving DecidableEq, Repr

/-- `create_dataset_if_not_exists` (`load_data.py` lines 53-66).  The first
argument is the oracle for `client.get_dataset`: `true` when the dataset
exists (the call returns), `false` when it raises (any exception is caught by
the bare `except`).  The result is the list of `create_dataset` calls issued. -/
def create_dataset_if_not_exists (datasetExists : Bool) (config : Config) :
    List DatasetCall :=
  let dataset_id := config.gcp_project_id ++ ".".toList ++ config.dataset_id
  if datasetExists then []
  else [DatasetCall.mk dataset_id config.location
          "Dataset created by CI/CD pipeline".toList]

end LoadData

namespace TestConnection

/-- External outcomes the diagnostic script depends on: the
`GCP_SERVICE_ACCOUNT_KEY` environment variable, whether `json.loads`
accepts a given text, and the outcome of each step of
`test_bigquery_connection` if that step is attempted. -/
structure DiagOracles where
  gcpKey : Option (List Char)
  jsonValid : List Char → Bool
  libOk : Bool
  configOk : Bool
  clientOk : Bool
  listOk : Bool
  targetDatasetExists : Bool

/-- The live client operations `test_bigquery_connection` can attempt. -/
inductive ApiCall where
  | clientConstruction
  | listDatasets
  | getDataset
deriving DecidableEq, Repr

/-- `test_environment` (`test_connection.py` lines 10-36): false when the
environment variable is unset; otherwise true exactly when `json.loads`
accepts its value.  No client call is made here. -/
def test_environment (env : DiagOracles) : Bool :=
  match env.gcpKey with
  | none => false
  | some key => env.jsonValid key

/-- `test_bigquery_connection` (`test_connection.py` lines 39-109): library
availability check, config load, client construction, `list_datasets`, then an
informational `get_dataset` whose outcome does not affect the result.  Returns
the boolean result together with the live client calls attempted. -/
def test_bigquery_connection (env : DiagOracles) : Bool × List ApiCall :=
  if !env.libOk then (false, [])
  else if !env.configOk then (false, [])
  else if !env.clientOk then (false, [ApiCall.clientConstruction])
  else if !env.listOk then (false, [ApiCall.clientConstruction, ApiCall.listDatasets])
  else (true, [ApiCall.clientConstruction, ApiCall.listDatasets, ApiCall.getDataset])

/-- `main` (`test_connection.py` lines 112-140): `success` starts true, is
cleared by a failing `test_environment`, and `test_bigquery_connection` runs
only when `success` is still true (Python `and` short-circuits).  Returns the
process exit code and the live client calls attempted. -/
def main (env : DiagOracles) : Nat × List ApiCall :=
  if test_environment env then
    let r := test_bigquery_connection env
    (if r.1 then 0 else 1, r.2)
  else (1, [])

/-- A concrete environment with the credential variable unset. -/
def envNoKey : DiagOracles :=
  DiagOracles.mk none (fun _ => false) true true true true true

/-- A concrete environment whose credential variable holds invalid JSON. -/
def envBadJson : DiagOracles :=
  DiagOracles.mk (some "not json".toList) (fun _ => false) true true true true true

end TestConnection

/-- Claim C4: on the input `A; B;; C` the splitter yields exactly
`["A", "B", "C"]`: split on every semicolon, strip surrounding whitespace,
drop fragments that are empty after stripping, keep the order. -/
theorem c4_splitter_example :
    RunTransformations.splitStatements "A; B;; C".toList
      = ["A".toList, "B".toList, "C".toList] := by
  decide

/-- Claim C1: if executing one statement of a multi-statement SQL file raises
an error, the error is caught and every subsequent statement is still
executed — the attempted statements are exactly the non-skipped statements,
in order, for every sequence of per-statement outcomes — and `main` still
returns exit code 0 once it reaches its final print block. -/
theorem c1_error_continuation (config : Config)
    (execOutcome : List Char → Except (List Char) Unit)
    (content : List Char) (tableExists queryOk : Bool) :
    (RunTransformations.processStatements execOutcome
        (RunTransformations.splitStatements
          (RunTransformations.substitute_parameters content config))).map Prod.fst
      = (RunTransformations.splitStatements
          (RunTransformations.substitute_parameters content config)).filter
          (fun s => !RunTransformations.shouldSkip s)
    ∧ (RunTransformations.main config execOutcome (some content) tableExists queryOk).2.2
        = 0 :=
  ⟨RunTransformations.processStatements_map_fst execOutcome _, rfl⟩

/-- Claim C2 (code behaviour at the failing input): the file content
`-- note` newline `SELECT 1` survives splitting as a single non-empty
fragment containing executable SQL, yet the execution loop attempts nothing:
the skip test fires on any fragment whose stripped text starts with `--`,
not only on comment-only fragments. -/
theorem c2_comment_prefix_discard :
    RunTransformations.splitStatements "-- note\nSELECT 1".toList
      = ["-- note\nSELECT 1".toList]
    ∧ RunTransformations.processStatements (fun _ => Except.ok ())
        (RunTransformations.splitStatements "-- note\nSELECT 1".toList) = [] := by
  decide

/-- Claim C3 (counterexample): the Data Loader reads `config.yaml` even when
the `CONFIG_FILE` environment variable selects `alt.yaml`, so its config-file
choice cannot be overridden by the environment variable. -/
theorem c3_counterexample :
    LoadData.load_config_file (some "alt.yaml".toList) = "config.yaml".toList
    ∧ "config.yaml".toList ≠ "alt.yaml".toList := by
  decide

/-- Claim C3 (amended): only the Transformation Runner's config loader honours
the `CONFIG_FILE` environment variable; the Data Loader's config loader always
reads `config.yaml` from the fixed relative path. -/
theorem c3_amended_config_override :
    (∀ e : Option (List Char), LoadData.load_config_file e = "config.yaml".toList)
    ∧ (∀ f : List Char, RunTransformations.load_config_file (some f) = f)
    ∧ RunTransformations.load_config_file none = "config.yaml".toList :=
  ⟨fun _ => rfl, fun _ => rfl, rfl⟩

/-- Claim C5: parameter substitution replaces the three placeholders with the
config values — for config values `p`, `d`, `t` the worked example yields
`SELECT * FROM p.d.t` — and a text in which no placeholder occurs is returned
unchanged. -/
theorem c5_substitution (config : Config) (text : List Char)
    (h1 : occursIn "{project_id}".toList text = false)
    (h2 : occursIn "{dataset_id}".toList text = false)
    (h3 : occursIn "{table_id}".toList text = false) :
    RunTransformations.substitute_parameters
        "SELECT * FROM {project_id}.{dataset_id}.{table_id}".toList
        (Config.mk "p".toList "d".toList "t".toList "US".toList)
      = "SELECT * FROM p.d.t".toList
    ∧ RunTransformations.substitute_parameters text config = text := by
  refine ⟨by decide, ?_⟩
  simp only [RunTransformations.substitute_parameters]
  rw [pyReplace_not_occurs text _ _ h1, pyReplace_not_occurs text _ _ h2,
    pyReplace_not_occurs text _ _ h3]

/-- Witness for C5 at a concrete placeholder-free text. -/
theorem c5_substitution_witness :
    occursIn "{project_id}".toList "SELECT 1 FROM t".toList = false
    ∧ RunTransformations.substitute_parameters "SELECT 1 FROM t".toList
        (Config.mk "p".toList "d".toList "t".toList "US".toList)
      = "SELECT 1 FROM t".toList :=
  ⟨by decide,
    (c5_substitution (Config.mk "p".toList "d".toList "t".toList "US".toList)
      "SELECT 1 FROM t".toList (by decide) (by decide) (by decide)).2⟩

/-- Claim C6: for a schema file parsed into `N` field entries, the Schema
Loader produces exactly `N` field definitions in file order, carrying each
entry's name and type, with mode defaulting to `NULLABLE` and description
defaulting to the empty string when absent. -/
theorem c6_schema_loader (schema_json : List LoadData.SchemaFieldJson) :
    (LoadData.load_table_schema schema_json).length = schema_json.length
    ∧ ∀ i : Nat,
        (LoadData.load_table_schema schema_json)[i]?
          = (schema_json[i]?).map (fun field =>
              LoadData.SchemaField.mk field.name field.type
                (field.mode.getD "NULLABLE".toList)
                (field.description.getD "".toList)) := by
  constructor
  · simp [LoadData.load_table_schema]
  · intro i
    simp [LoadData.load_table_schema, List.getElem?_map]

/-- Claim C7: the Dataset Ensurer is idempotent — when the dataset exists it
issues no creation call; when it is absent it issues exactly one creation
call, carrying the configured geographic location. -/
theorem c7_dataset_ensurer (config : Config) :
    LoadData.create_dataset_if_not_exists true config = []
    ∧ LoadData.create_dataset_if_not_exists false config
        = [LoadData.DatasetCall.mk
            (config.gcp_project_id ++ ".".toList ++ config.dataset_id)
            config.location "Dataset created by CI/CD pipeline".toList]
    ∧ (LoadData.create_dataset_if_not_exists false config).length = 1 :=
  ⟨rfl, rfl, rfl⟩

/-- Claim C8: the Diagnostic Tool exits with 0 exactly when both checks pass;
when the credential environment variable is unset, or set but rejected by the
JSON parser, it exits with 1 and attempts no live client call. -/
theorem c8_diagnostic (env : TestConnection.DiagOracles) :
    ((TestConnection.main env).1 = 0
        ↔ TestConnection.test_environment env = true
          ∧ (TestConnection.test_bigquery_connection env).1 = true)
    ∧ (env.gcpKey = none →
        (TestConnection.main env).1 = 1 ∧ (TestConnection.main env).2 = [])
    ∧ (∀ k : List Char, env.gcpKey = some k → env.jsonValid k = false →
        (TestConnection.main env).1 = 1 ∧ (TestConnection.main env).2 = []) := by
  refine ⟨?_, ?_, ?_⟩
  · constructor
    · intro h0
      by_cases he : TestConnection.test_environment env = true
      · refine ⟨he, ?_⟩
        by_cases hc : (TestConnection.test_bigquery_connection env).1 = true
        · exact hc
        · exfalso
          simp [TestConnection.main, he, hc] at h0
      · exfalso
        simp [TestConnection.main, he] at h0
    · rintro ⟨he, hc⟩
      simp [TestConnection.main, he, hc]
  · intro hk
    simp [TestConnection.main, TestConnection.test_environment, hk]
  · intro k hk hj
    simp [TestConnection.main, TestConnection.test_environment, hk, hj]

/-- Witness for C8: with the credential variable unset the exit code is 1 and
no client call is attempted; likewise when it is set to text the JSON parser
rejects. -/
theorem c8_diagnostic_witness :
    (TestConnection.envNoKey.gcpKey = none
      ∧ (TestConnection.main TestConnection.envNoKey).1 = 1
      ∧ (TestConnection.main TestConnection.envNoKey).2 = [])
    ∧ (TestConnection.envBadJson.gcpKey = some "not json".toList
      ∧ (TestConnection.main TestConnection.envBadJson).1 = 1
      ∧ (TestConnection.main TestConnection.envBadJson).2 = []) :=
  ⟨⟨rfl, (c8_diagnostic TestConnection.envNoKey).2.1 rfl⟩,
    ⟨rfl, (c8_diagnostic TestConnection.envBadJson).2.2 "not json".toList rfl rfl⟩⟩

/-- Claim C9: when the SQL file does not exist the runner returns without
reading, substituting or executing anything, and the overall run still
proceeds to the verification step and returns 0. -/
theorem c9_missing_file (config : Config)
    (execOutcome : List Char → Except (List Char) Unit) (tableExists queryOk : Bool) :
    RunTransformations.run_sql_file execOutcome config none = []
    ∧ RunTransformations.main config execOutcome none tableExists queryOk
        = ([], RunTransformations.verify_transformations tableExists queryOk, 0) :=
  ⟨rfl, rfl⟩

/-- Claim C10: substitution is sequential in the fixed order project, dataset,
table: with a project id whose value contains the literal `\x7bdataset_id\x7d`
text, the dataset id value `D` ends up embedded inside the substituted project
id value (`xDy`), which simultaneous substitution would not produce. -/
theorem c10_sequential_substitution :
    RunTransformations.substitute_parameters "{project_id}".toList
        (Config.mk "x{dataset_id}y".toList "D".toList "T".toList "US".toList)
      = "xDy".toList := by
  decide
